import Mathlib

/-!
Verification development for the `yggdrasilctl` admin-API client library.

The Python sources are shallowly embedded:

* JSON values (plus the `datetime.timedelta` / `datetime.datetime` values
  produced by field normalization) become the inductive `JValue`.
  JSON numbers are embedded as integers, which is the only case the
  claims exercise; `round` on an integer is the identity.
* Python `dict`s become insertion-ordered association lists
  (`List (String × JValue)`): assignment overwrites the first matching
  key in place and appends unknown keys at the end (`assocSet`),
  `dict.update` folds assignment over the other dict's items
  (`dictUpdate`), `k in d` / `d[k]` become `lookupD`.
* Raised exceptions become `Except` with the error taxonomy `PyError`.
  In the source, `APIUnreachable` is a subclass of `APIError`;
  the daemon-reported error raised by `_send_request` is a bare
  `APIError` and is distinguishable from `APIUnreachable`
  (`isDaemonApiError` / `isUnreachableError`).
* Network I/O is abstracted by explicit parameters: the decoded response
  envelope that the read would produce, and a `netError : Option String`
  oracle (`none` = the TCP connect succeeds, `some msg` = it fails with
  `OSError(msg)`).
* Socket handles become natural numbers allocated from a counter in
  `ConnState`, with the set of open handles tracked explicitly.
-/

/-- JSON values as handled by the client, extended with the two values
`datetime.timedelta` (`dur`, seconds) and `datetime.datetime`
(`time`, seconds since epoch) that field normalization produces. -/
inductive JValue where
  | str : String → JValue
  | num : Int → JValue
  | bool : Bool → JValue
  | null : JValue
  | arr : List JValue → JValue
  | obj : List (String × JValue) → JValue
  | dur : Int → JValue
  | time : Int → JValue

/-- The exceptions the embedded code can raise. `apiError` is the
daemon-reported `APIError` raised by `_send_request`; `apiUnreachable`
is `errors.APIUnreachable`; the rest are built-in Python exceptions. -/
inductive PyError where
  | apiError (payload : JValue)
  | apiUnreachable (msg : String)
  | osError (msg : String)
  | keyError (key : String)
  | typeError (msg : String)
  | indexError (idx : Nat)

/-- `isinstance(e, APIError) and not isinstance(e, APIUnreachable)`:
the error is the daemon-reported error raised on `status != "success"`. -/
def isDaemonApiError : PyError → Bool
  | .apiError _ => true
  | _ => false

/-- `isinstance(e, APIUnreachable)`. -/
def isUnreachableError : PyError → Bool
  | .apiUnreachable _ => true
  | _ => false

/-- `d[k]` / `k in d` on a Python dict embedded as an association list. -/
def lookupD : List (String × JValue) → String → Option JValue
  | [], _ => none
  | (k', v) :: rest, k => if k' = k then some v else lookupD rest k

/-- `d[k] = v` on a Python dict: overwrite the first binding of `k`
in place, or append a new binding at the end. -/
def assocSet : List (String × JValue) → String → JValue → List (String × JValue)
  | [], k, v => [(k, v)]
  | (k', v') :: rest, k, v =>
    if k' = k then (k', v) :: rest else (k', v') :: assocSet rest k v

/-- `d.update(other)`: assign each of `other`'s items into `d`, in order. -/
def dictUpdate (d other : List (String × JValue)) : List (String × JValue) :=
  other.foldl (fun acc kv => assocSet acc kv.1 kv.2) d

/-- `list(d.keys())`. -/
def keysOf (d : List (String × JValue)) : List String :=
  d.map Prod.fst

/-- `req = {'request': method, **kwargs}` — the encoded request object
built by `_send_request` in both `aio.py` and `sync.py`. -/
def encodeRequest (method : String) (kwargs : List (String × JValue)) :
    List (String × JValue) :=
  dictUpdate [("request", JValue.str method)] kwargs

/-- `response['status'] == 'success'`: Python `==` between an arbitrary
JSON value and the string is `False` (never an error) off the string case. -/
def isSuccessStatus : JValue → Bool
  | .str s => s = "success"
  | _ => false

/-- Tests whether a value is a JSON object (a Python dict). -/
def JValue.isObj : JValue → Bool
  | .obj _ => true
  | _ => false

/-- The classification step shared verbatim by `aio.AdminAPI._send_request`
and `sync.AdminAPI._send_request`:

```
if not response['status']=='success':
    if 'error' in response:
        response = response['error']
    raise APIError(response)
return response['response']
```

`response['status']` on an envelope without `status` raises `KeyError`. -/
def classifyResponse (envelope : List (String × JValue)) : Except PyError JValue :=
  match lookupD envelope "status" with
  | none => .error (.keyError "status")
  | some st =>
    if isSuccessStatus st then
      match lookupD envelope "response" with
      | none => .error (.keyError "response")
      | some r => .ok r
    else
      .error (.apiError (match lookupD envelope "error" with
        | some e => e
        | none => .obj envelope))

namespace Aio

/-- `aio.AdminAPI._send_request` after the wire exchange: classify the
decoded envelope, then `self.stats.update(response['response'])` and
return the response body.  The request built and written is
`encodeRequest method kwargs`; the decoded reply is the `envelope`
argument.  `stats.update` on a non-dict argument raises `TypeError`
(`ValueError` for most shapes in CPython; the distinction is immaterial
here since every claim exercises the dict case). -/
def send_request (method : String) (kwargs : List (String × JValue))
    (envelope : List (String × JValue)) (stats : List (String × JValue)) :
    Except PyError (JValue × List (String × JValue)) :=
  let _req := encodeRequest method kwargs
  match classifyResponse envelope with
  | .error e => .error e
  | .ok r =>
    match r with
    | .obj fields => .ok (r, dictUpdate stats fields)
    | _ => .error (.typeError "stats.update argument is not a mapping")

/-- `aio.AdminAPI.getSelf`:

```
raw = await self._send_request('getSelf')
response = raw['self']
addr, params = tuple(response.items())[0]
return dict(addr=addr, **params)
```

`raw['self']` on a body without the key raises `KeyError('self')`;
`tuple(response.items())[0]` on an empty dict raises `IndexError`;
`dict(addr=addr, **params)` raises `TypeError` if `params` is not a
mapping or already binds `addr`. -/
def getSelf (envelope : List (String × JValue)) (stats : List (String × JValue)) :
    Except PyError (List (String × JValue) × List (String × JValue)) :=
  match send_request "getSelf" [] envelope stats with
  | .error e => .error e
  | .ok (raw, stats') =>
    match raw with
    | .obj rawFields =>
      match lookupD rawFields "self" with
      | none => .error (.keyError "self")
      | some response =>
        match response with
        | .obj items =>
          match items with
          | [] => .error (.indexError 0)
          | (addr, params) :: _ =>
            match params with
            | .obj paramFields =>
              if (lookupD paramFields "addr").isSome then
                .error (.typeError "got multiple values for keyword argument addr")
              else
                .ok (("addr", JValue.str addr) :: paramFields, stats')
            | _ => .error (.typeError "argument after ** must be a mapping")
        | _ => .error (.typeError "object has no attribute items")
    | _ => .error (.typeError "value is not subscriptable")

end Aio

/-- Socket-handle allocation state: handles are naturals drawn from
`nextId`; `opened` holds the handles currently open (connected and not
yet closed). -/
structure ConnState where
  nextId : Nat
  opened : List Nat

/-- `round(x)` as applied by `utils.preprocess`.  JSON numbers are
embedded as integers, on which `round` is the identity; on a
non-numeric value Python raises `TypeError`. -/
def pyRound : JValue → Except PyError Int
  | .num n => .ok n
  | _ => .error (.typeError "type does not define __round__")

/-- `utils.preprocess(**kwargs)`:

```
if 'uptime' in kwargs:
    sec = round(kwargs['uptime'])
    kwargs['uptime'] = td(seconds=sec)
if 'last_seen' in kwargs:
    sec = round(kwargs['last_seen'])
    date = dt.now() - td(seconds=sec)
    kwargs['last_seen'] = date
return kwargs
```

`dt.now()` is the explicit `now` argument (seconds since epoch).  The
two `if`-blocks run in sequence, the second over the record left by the
first; a `TypeError` from `round` aborts the call. -/
def preprocess (now : Int) (kwargs : List (String × JValue)) :
    Except PyError (List (String × JValue)) :=
  match
    (match lookupD kwargs "uptime" with
     | some v =>
       match pyRound v with
       | .error e => .error e
       | .ok sec => .ok (assocSet kwargs "uptime" (JValue.dur sec))
     | none => .ok kwargs : Except PyError (List (String × JValue)))
  with
  | .error e => .error e
  | .ok kwargs1 =>
    match lookupD kwargs1 "last_seen" with
    | some v =>
      match pyRound v with
      | .error e => .error e
      | .ok sec => .ok (assocSet kwargs1 "last_seen" (JValue.time (now - sec)))
    | none => .ok kwargs1

/-- `utils.connect(host, port)` up to its first yield:
`asyncio.open_connection` either succeeds (alloc a fresh handle) or
raises `OSError(msg)`, re-raised as `APIUnreachable(str(e))`.  The
`netError` oracle says whether and how the connect fails. -/
def connect (host : String) (port : Nat) (netError : Option String)
    (st : ConnState) : Except PyError (Nat × ConnState) :=
  let _addr := (host, port)
  match netError with
  | some msg => .error (.apiUnreachable msg)
  | none => .ok (st.nextId, ⟨st.nextId + 1, st.nextId :: st.opened⟩)

namespace Sync

/-- `sync.AdminAPI` instance state: `self.addr`, `self.keepalive`, and
`self.connection` — the latter set iff the client was constructed with
`keepalive=True` (the code tests `hasattr(self, 'connection')`). -/
structure AdminAPI where
  host : String
  port : Nat
  keepalive : Bool
  connection : Option Nat

/-- `sync.AdminAPI.__init__(address, port, keepalive)`:

```
if keepalive:
    self.connection = socket(ip, tcp)
    self.connection.connect(self.addr)
```

The `connect` call is NOT wrapped in try/except: on failure the raw
`OSError` propagates out of the constructor (the socket object that was
created is abandoned, not registered as open). -/
def init (address : String) (port : Nat) (keepalive : Bool)
    (netError : Option String) (st : ConnState) :
    Except PyError (AdminAPI × ConnState) :=
  if keepalive then
    match netError with
    | some msg => .error (.osError msg)
    | none =>
      .ok (⟨address, port, true, some st.nextId⟩,
           ⟨st.nextId + 1, st.nextId :: st.opened⟩)
  else
    .ok (⟨address, port, false, none⟩, st)

/-- `sync.AdminAPI._get_connection`:

```
if hasattr(self, 'connection'):
    conn = self.connection
else:
    conn = socket(ip, tcp)
    try:
        conn.connect(self.addr)
    except socket_error:
        raise APIUnreachable("Can't connect to {}:{}".format(*self.addr))
return conn
```

Note the ephemeral branch discards the OS error message and formats its
own. -/
def get_connection (c : AdminAPI) (netError : Option String)
    (st : ConnState) : Except PyError (Nat × ConnState) :=
  match c.connection with
  | some h => .ok (h, st)
  | none =>
    match netError with
    | none => .ok (st.nextId, ⟨st.nextId + 1, st.nextId :: st.opened⟩)
    | some _ =>
      .error (.apiUnreachable
        ("Can't connect to " ++ c.host ++ ":" ++ toString c.port))

/-- `sync.AdminAPI._send_request`: acquire a connection, perform the
exchange inside `try`, and in `finally` close the connection unless
`keepalive`.  The wire exchange (`json.dump` + `json.load`) is
abstracted by `wire`: `.ok envelope` is the decoded reply, `.error msg`
a socket/stream failure raised during the exchange (propagated raw).
Classification (`classifyResponse`) happens after the `finally` block.
Returns the call's outcome, the resulting allocation state, and the
handle that was used (`none` when acquisition itself failed). -/
def send_request (c : AdminAPI) (netError : Option String)
    (wire : Except String (List (String × JValue))) (st : ConnState)
    (method : String) (kwargs : List (String × JValue)) :
    Except PyError JValue × ConnState × Option Nat :=
  let _req := encodeRequest method kwargs
  match get_connection c netError st with
  | .error e => (.error e, st, none)
  | .ok (conn, st1) =>
    let exchanged : Except PyError JValue :=
      match wire with
      | .error msg => .error (.osError msg)
      | .ok envelope => classifyResponse envelope
    let st2 : ConnState :=
      if c.keepalive then st1 else ⟨st1.nextId, st1.opened.erase conn⟩
    (exchanged, st2, some conn)

end Sync

namespace Aio

/-- The eight method names wired up by `aio.AdminAPI.__init_trackers`:
`self.__callbacks = {method: [] for method in methods}`. -/
def tracked_methods : List String :=
  ["DHTping", "getAllowedEncryptionPublicKeys", "getDHT", "getNodeInfo",
   "getPeers", "getSelf", "getSessions", "getSwitchPeers"]

/-- Callback registry: operation name ↦ ordered list of callback handles
(callbacks are opaque, identified by naturals). -/
def init_callbacks : List (String × List Nat) :=
  tracked_methods.map (fun m => (m, []))

/-- `self.__callbacks[method]` lookup. -/
def lookupCallbacks : List (String × List Nat) → String → Option (List Nat)
  | [], _ => none
  | (k', v) :: rest, k => if k' = k then some v else lookupCallbacks rest k

/-- `aio.AdminAPI.add_done_callback(method, cb)`:

```
try:
    self.__callbacks[method].append[cb]
except KeyError:
    pass
return len(self.__callbacks[method]) - 1
```

When `method` is registered, `self.__callbacks[method]` succeeds and
`.append[cb]` — a SUBSCRIPT of the bound `append` method, not a call —
raises `TypeError`, which the `except KeyError` clause does not catch.
When `method` is unknown, the `KeyError` inside the `try` is swallowed,
but the `return` expression re-evaluates `self.__callbacks[method]` and
raises `KeyError` outside the `try`.  Either way the registry is left
unmodified and an exception escapes. -/
def add_done_callback (cbs : List (String × List Nat)) (method : String)
    (_cb : Nat) : Except PyError Nat :=
  match lookupCallbacks cbs method with
  | some _ => .error (.typeError "builtin_function_or_method object is not subscriptable")
  | none => .error (.keyError method)

/-- The callback-firing half of `aio.AdminAPI.done_tracker`: after the
wrapped coroutine resolves, `self.__callbacks.get(coro.__name__, [])`
is iterated and each callback invoked, in order, with the result.  The
value is the list of callback handles invoked. -/
def fired_callbacks (cbs : List (String × List Nat)) (method : String) :
    List Nat :=
  (lookupCallbacks cbs method).getD []

end Aio

/-! ### Concrete records and envelopes used by the claims -/

/-- The node map `{"ff::1": {"build_name": "ygg"}}` from the round-trip
scenario. -/
def selfBody : JValue :=
  JValue.obj [("ff::1", JValue.obj [("build_name", JValue.str "ygg")])]

/-- The success envelope exactly as the round-trip claim writes it: the
response body is the node map itself, with no `"self"` wrapper. -/
def claimSelfEnvelope : List (String × JValue) :=
  [("status", JValue.str "success"), ("response", selfBody)]

/-- The success envelope `getSelf` actually consumes: the node map is
nested under the `"self"` key of the response body. -/
def actualSelfEnvelope : List (String × JValue) :=
  [("status", JValue.str "success"),
   ("response", JValue.obj [("self", selfBody)])]

/-- An error envelope whose `error` field is present but empty. -/
def emptyErrorEnvelope : List (String × JValue) :=
  [("status", JValue.str "error"), ("error", JValue.str "")]

/-- A record holding both `proto` and `endpoint`, as in the claim about
derived `faddr` fields. -/
def protoEndpointRecord : List (String × JValue) :=
  [("proto", JValue.str "tcp"), ("endpoint", JValue.str "1.2.3.4:9001")]

/-- A decoded envelope with no `status` field at all. -/
def missingStatusEnvelope : List (String × JValue) :=
  [("response", JValue.obj [])]

/-- The response body of a successful `addPeer` call. -/
def addPeerBody : List (String × JValue) :=
  [("added", JValue.arr [JValue.str "tcp://1.2.3.4:5"]),
   ("not_added", JValue.arr [])]

/-- A success envelope for the write operation `addPeer`. -/
def addPeerEnvelope : List (String × JValue) :=
  [("status", JValue.str "success"), ("response", JValue.obj addPeerBody)]


/-! ### Association-list lemmas about the dict embedding -/

theorem dictUpdate_nil (m : List (String × JValue)) : dictUpdate m [] = m := rfl

theorem dictUpdate_cons (m rest : List (String × JValue)) (k : String) (v : JValue) :
    dictUpdate m ((k, v) :: rest) = dictUpdate (assocSet m k v) rest := rfl

theorem lookupD_assocSet (m : List (String × JValue)) (k a : String) (v : JValue) :
    lookupD (assocSet m k v) a = if k = a then some v else lookupD m a := by
  induction m with
  | nil => simp [assocSet, lookupD]
  | cons hd tl ih =>
    obtain ⟨k', v'⟩ := hd
    by_cases h : k' = k
    · subst h
      by_cases h2 : k' = a <;> simp [assocSet, lookupD, h2]
    · by_cases h2 : k' = a
      · subst h2
        have hka : ¬ k = k' := fun hk => h hk.symm
        simp [assocSet, lookupD, h, hka]
      · simp [assocSet, lookupD, h, h2, ih]

theorem lookupD_eq_none_of_not_mem (m : List (String × JValue)) (k : String)
    (h : k ∉ keysOf m) : lookupD m k = none := by
  induction m with
  | nil => rfl
  | cons hd tl ih =>
    obtain ⟨k', v'⟩ := hd
    simp only [keysOf, List.map_cons, List.mem_cons, not_or] at h
    have hne : ¬ k' = k := fun hh => h.1 hh.symm
    simp only [lookupD, if_neg hne]
    exact ih h.2

theorem mem_keysOf_assocSet (m : List (String × JValue)) (k a : String) (v : JValue) :
    a ∈ keysOf (assocSet m k v) ↔ a ∈ keysOf m ∨ a = k := by
  induction m with
  | nil => simp [assocSet, keysOf]
  | cons hd tl ih =>
    obtain ⟨k', v'⟩ := hd
    by_cases h : k' = k
    · subst h
      have hset : assocSet ((k', v') :: tl) k' v = (k', v) :: tl := by
        simp [assocSet]
      rw [hset]
      simp only [keysOf, List.map_cons, List.mem_cons]
      tauto
    · have hset : assocSet ((k', v') :: tl) k v = (k', v') :: assocSet tl k v := by
        simp [assocSet, h]
      rw [hset]
      simp only [keysOf, List.map_cons, List.mem_cons]
      simp only [keysOf] at ih
      rw [ih]
      tauto

theorem keysOf_assocSet_of_isSome (m : List (String × JValue)) (k : String)
    (v : JValue) (h : (lookupD m k).isSome) :
    keysOf (assocSet m k v) = keysOf m := by
  induction m with
  | nil => simp [lookupD] at h
  | cons hd tl ih =>
    obtain ⟨k', v'⟩ := hd
    by_cases hk : k' = k
    · simp [assocSet, hk, keysOf]
    · simp only [lookupD, if_neg hk] at h
      have htl := ih h
      simp only [keysOf, List.map_cons] at htl ⊢
      simp only [assocSet, if_neg hk, List.map_cons]
      rw [htl]

theorem mem_keysOf_dictUpdate (other : List (String × JValue)) :
    ∀ (m : List (String × JValue)) (a : String),
      a ∈ keysOf (dictUpdate m other) ↔ a ∈ keysOf m ∨ a ∈ keysOf other := by
  induction other with
  | nil => simp [dictUpdate, keysOf]
  | cons hd rest ih =>
    obtain ⟨k, v⟩ := hd
    intro m a
    rw [dictUpdate_cons, ih]
    rw [mem_keysOf_assocSet]
    simp only [keysOf, List.map_cons, List.mem_cons]
    tauto

theorem keysOf_and_frame_of_preprocess_ok (now : Int)
    (r out : List (String × JValue)) (h : preprocess now r = Except.ok out) :
    keysOf out = keysOf r ∧
      ∀ k, k ≠ "uptime" → k ≠ "last_seen" → lookupD out k = lookupD r k := by
  have step : ∀ (m : List (String × JValue)) (key : String) (w nv : JValue),
      lookupD m key = some w →
      keysOf (assocSet m key nv) = keysOf m ∧
        ∀ k, k ≠ key → lookupD (assocSet m key nv) k = lookupD m k := by
    intro m key w nv hw
    refine ⟨keysOf_assocSet_of_isSome m key nv (by rw [hw]; rfl), ?_⟩
    intro k hk
    rw [lookupD_assocSet]
    exact if_neg (fun hkk => hk hkk.symm)
  unfold preprocess at h
  cases h1 : lookupD r "uptime" with
  | none =>
    simp only [h1] at h
    cases h2 : lookupD r "last_seen" with
    | none => simp only [h2] at h; cases h; exact ⟨rfl, fun k _ _ => rfl⟩
    | some v =>
      simp only [h2] at h
      cases hr : pyRound v with
      | error e => simp only [hr] at h; exact Except.noConfusion h
      | ok sec =>
        simp only [hr] at h
        cases h
        obtain ⟨hks, hfr⟩ := step r "last_seen" v (JValue.time (now - sec)) h2
        exact ⟨hks, fun k _ hk2 => hfr k hk2⟩
  | some v =>
    simp only [h1] at h
    cases hr : pyRound v with
    | error e => simp only [hr] at h; exact Except.noConfusion h
    | ok sec =>
      simp only [hr] at h
      obtain ⟨hks1, hfr1⟩ := step r "uptime" v (JValue.dur sec) h1
      cases h2 : lookupD (assocSet r "uptime" (JValue.dur sec)) "last_seen" with
      | none =>
        simp only [h2] at h
        cases h
        exact ⟨hks1, fun k hk1 _ => hfr1 k hk1⟩
      | some w =>
        simp only [h2] at h
        cases hr2 : pyRound w with
        | error e => simp only [hr2] at h; exact Except.noConfusion h
        | ok sec2 =>
          simp only [hr2] at h
          cases h
          obtain ⟨hks2, hfr2⟩ :=
            step (assocSet r "uptime" (JValue.dur sec)) "last_seen" w
              (JValue.time (now - sec2)) h2
          exact ⟨hks2.trans hks1, fun k hk1 hk2 => (hfr2 k hk2).trans (hfr1 k hk1)⟩

theorem lookupD_dictUpdate (other : List (String × JValue))
    (hnd : (keysOf other).Nodup) :
    ∀ (m : List (String × JValue)) (k : String),
      lookupD (dictUpdate m other) k =
        match lookupD other k with
        | some v => some v
        | none => lookupD m k := by
  induction other with
  | nil => intro m k; simp [dictUpdate, lookupD]
  | cons hd rest ih =>
    obtain ⟨k0, v0⟩ := hd
    simp only [keysOf, List.map_cons, List.nodup_cons] at hnd
    intro m k
    rw [dictUpdate_cons, ih (by simpa [keysOf] using hnd.2)]
    by_cases hk : k0 = k
    · subst hk
      have : lookupD rest k0 = none :=
        lookupD_eq_none_of_not_mem rest k0 (by simpa [keysOf] using hnd.1)
      simp [lookupD, this, lookupD_assocSet]
    · simp only [lookupD, if_neg hk]
      cases hrest : lookupD rest k with
      | some v => simp
      | none => simp [lookupD_assocSet, hk]

/-! ### The claims -/

/-- C1 (counterexample): decoding the success envelope
`{"status":"success","response":{"ff::1":{"build_name":"ygg"}}}` through
`getSelf` does NOT yield `{"addr": "ff::1", "build_name": "ygg"}`: the
facade indexes the response body with `raw['self']`, and this body has
no `"self"` key, so the call raises `KeyError('self')`. -/
theorem getSelf_claim_envelope_raises_keyerror :
    Aio.getSelf claimSelfEnvelope [] = Except.error (PyError.keyError "self") ∧
    Aio.getSelf claimSelfEnvelope [] ≠
      Except.ok ([("addr", JValue.str "ff::1"), ("build_name", JValue.str "ygg")],
                 [("ff::1", JValue.obj [("build_name", JValue.str "ygg")])]) :=
  ⟨rfl, fun h => Except.noConfusion h⟩

/-- C1 (amended): encoding a request for operation `"getSelf"` with no
parameters produces exactly `{"request": "getSelf"}`; and decoding the
success envelope whose response body nests the node map under `"self"`,
`{"status":"success","response":{"self":{"ff::1":{"build_name":"ygg"}}}}`,
through `getSelf` yields the record `{"addr": "ff::1", "build_name": "ygg"}`
(and the stats aggregate picks up the `self` key). -/
theorem getSelf_roundtrip_amended :
    encodeRequest "getSelf" [] = [("request", JValue.str "getSelf")] ∧
    Aio.getSelf actualSelfEnvelope [] =
      Except.ok ([("addr", JValue.str "ff::1"), ("build_name", JValue.str "ygg")],
                 [("self", selfBody)]) :=
  ⟨rfl, rfl⟩

/-- C2 (counterexample): on `{"status":"error","error":""}` the raised
error carries the empty `error` field verbatim — not the remainder of
the decoded envelope, as the claim's "present and non-empty" proviso
would require (the code tests only membership of `'error'`). -/
theorem empty_error_field_used_verbatim :
    classifyResponse emptyErrorEnvelope =
      Except.error (PyError.apiError (JValue.str "")) ∧
    JValue.str "" ≠ JValue.obj [("status", JValue.str "error")] ∧
    JValue.str "" ≠ JValue.obj emptyErrorEnvelope :=
  ⟨rfl, fun h => JValue.noConfusion h, fun h => JValue.noConfusion h⟩

/-- C2 (amended): for every decoded envelope whose `status` is present
and differs from `"success"`, the dispatch raises `APIError`; its
payload is the `error` field's contents whenever that field is present
(even when empty), and otherwise the whole decoded envelope.  The async
dispatcher propagates exactly the classification's error.  In
particular, `{"status":"error","error":"unknown peer"}` raises
`APIError` with payload `"unknown peer"`. -/
theorem error_envelope_payload_amended :
    (∀ envelope st, lookupD envelope "status" = some st →
      isSuccessStatus st = false →
      classifyResponse envelope =
        Except.error (PyError.apiError
          (match lookupD envelope "error" with
           | some e => e
           | none => JValue.obj envelope))) ∧
    (∀ method kwargs envelope stats e,
      classifyResponse envelope = Except.error e →
      Aio.send_request method kwargs envelope stats = Except.error e) ∧
    classifyResponse
        [("status", JValue.str "error"), ("error", JValue.str "unknown peer")] =
      Except.error (PyError.apiError (JValue.str "unknown peer")) := by
  refine ⟨?_, ?_, rfl⟩
  · intro envelope st hst hsucc
    unfold classifyResponse
    rw [hst]
    simp [hsucc]
  · intro method kwargs envelope stats e h
    unfold Aio.send_request
    rw [h]

/-- C2 (witness): an error envelope with no `error` field at all is
reported with the whole decoded envelope as payload. -/
theorem error_envelope_payload_witness :
    classifyResponse [("status", JValue.str "error")] =
      Except.error (PyError.apiError (JValue.obj [("status", JValue.str "error")])) :=
  error_envelope_payload_amended.1 [("status", JValue.str "error")]
    (JValue.str "error") rfl rfl

/-- C3 (counterexample): on a record holding both `proto: "tcp"` and
`endpoint: "1.2.3.4:9001"`, `preprocess` returns the record unchanged:
no `faddr` key is added (the function only touches `uptime` and
`last_seen`). -/
theorem preprocess_no_faddr_cex :
    preprocess 0 protoEndpointRecord = Except.ok protoEndpointRecord ∧
    lookupD protoEndpointRecord "faddr" = none ∧
    lookupD protoEndpointRecord "proto" = some (JValue.str "tcp") ∧
    lookupD protoEndpointRecord "endpoint" = some (JValue.str "1.2.3.4:9001") :=
  ⟨rfl, rfl, rfl, rfl⟩

/-- C3 (amended): field normalization never derives an `faddr` field:
whenever `preprocess` returns a record, its `proto`, `endpoint` and
`faddr` entries are exactly those of the input (in particular `faddr`
is absent unless the input already had it); and on a record without
`uptime` and without `last_seen` the function returns its input
unchanged, raising no error. -/
theorem preprocess_faddr_amended :
    (∀ now r out, preprocess now r = Except.ok out →
      lookupD out "proto" = lookupD r "proto" ∧
      lookupD out "endpoint" = lookupD r "endpoint" ∧
      lookupD out "faddr" = lookupD r "faddr") ∧
    (∀ now r, lookupD r "uptime" = none → lookupD r "last_seen" = none →
      preprocess now r = Except.ok r) := by
  constructor
  · intro now r out h
    obtain ⟨-, hframe⟩ := keysOf_and_frame_of_preprocess_ok now r out h
    exact ⟨hframe "proto" (by decide) (by decide),
           hframe "endpoint" (by decide) (by decide),
           hframe "faddr" (by decide) (by decide)⟩
  · intro now r h1 h2
    unfold preprocess
    simp only [h1, h2]

/-- C3 (witness): the amended statement at the concrete record of the
claim. -/
theorem preprocess_faddr_witness :
    preprocess 0 protoEndpointRecord = Except.ok protoEndpointRecord :=
  preprocess_faddr_amended.2 0 protoEndpointRecord rfl rfl

/-- C6 (counterexample): a decoded envelope lacking `status` makes the
dispatch raise `KeyError('status')` — a plain `KeyError`, not the
daemon-reported `APIError` the claim promises. -/
theorem missing_status_keyerror_cex :
    classifyResponse missingStatusEnvelope =
      Except.error (PyError.keyError "status") ∧
    Aio.send_request "getSelf" [] missingStatusEnvelope [] =
      Except.error (PyError.keyError "status") ∧
    isDaemonApiError (PyError.keyError "status") = false :=
  ⟨rfl, rfl, rfl⟩

/-- C6 (amended): for every decoded envelope lacking a `status` field,
the dispatch raises `KeyError('status')` — the failure escapes as the
undeclared built-in `KeyError`, not as `APIError`. -/
theorem missing_status_amended :
    ∀ envelope, lookupD envelope "status" = none →
      classifyResponse envelope = Except.error (PyError.keyError "status") ∧
      ∀ method kwargs stats,
        Aio.send_request method kwargs envelope stats =
          Except.error (PyError.keyError "status") := by
  intro envelope h
  have hc : classifyResponse envelope = Except.error (PyError.keyError "status") := by
    unfold classifyResponse
    rw [h]
  refine ⟨hc, fun method kwargs stats => ?_⟩
  unfold Aio.send_request
  rw [hc]

/-- C6 (witness): the amended statement at the concrete envelope
`{"response": {}}`. -/
theorem missing_status_witness :
    classifyResponse missingStatusEnvelope =
      Except.error (PyError.keyError "status") :=
  (missing_status_amended missingStatusEnvelope rfl).1

/-- C8 (code bug): registering a completion callback for the tracked
operation `"getPeers"` does not append the callback and does not return
an index: `self.__callbacks[method].append[cb]` SUBSCRIPTS the bound
`append` method instead of calling it, so registration raises
`TypeError`, the registry stays empty, and a subsequent successful
`getPeers` dispatch invokes no callback. -/
theorem add_done_callback_getPeers_typeerror :
    Aio.add_done_callback Aio.init_callbacks "getPeers" 0 =
      Except.error (PyError.typeError
        "builtin_function_or_method object is not subscriptable") ∧
    Aio.fired_callbacks Aio.init_callbacks "getPeers" = [] :=
  ⟨rfl, rfl⟩

/-- C9 (code bug): registering a callback for an operation name outside
the tracked set is NOT a silent no-op: the `KeyError` swallowed inside
the `try` block is raised again by the `return` statement, which
re-indexes `self.__callbacks[method]` outside the `try`. -/
theorem add_done_callback_unknown_keyerror :
    Aio.add_done_callback Aio.init_callbacks "frobnicate" 0 =
      Except.error (PyError.keyError "frobnicate") :=
  rfl

/-- C4 (counterexample): dispatching the write operation `addPeer`
through the async client's `_send_request` does NOT leave the stats
aggregate unchanged: starting from empty stats, a successful `addPeer`
merges the response body (`added`/`not_added`) into the aggregate,
because `self.stats.update(response['response'])` runs for every
successful dispatch, with no tracked-operation filter. -/
theorem write_op_updates_stats_cex :
    Aio.send_request "addPeer" [("uri", JValue.str "tcp://1.2.3.4:5")]
        addPeerEnvelope [] =
      Except.ok (JValue.obj addPeerBody, addPeerBody) ∧
    addPeerBody ≠ [] :=
  ⟨rfl, fun h => List.noConfusion h⟩

/-- C4 (amended): in the async client, EVERY successful dispatch —
read-only and write operations alike — merges exactly the keys present
in the response body into the stats aggregate (`dict.update`
semantics): the result body is always a JSON object, the new stats are
`dictUpdate stats fields`, whose key set is the union of the old keys
and the response keys, with a response entry overwriting a same-named
tracked key (last write wins) and every other key left untouched.  (The
sync client keeps no stats aggregate at all.) -/
theorem stats_merge_amended :
    (∀ method kwargs envelope stats r stats',
      Aio.send_request method kwargs envelope stats = Except.ok (r, stats') →
      r.isObj = true) ∧
    (∀ method kwargs envelope stats fields stats',
      Aio.send_request method kwargs envelope stats =
        Except.ok (JValue.obj fields, stats') →
      stats' = dictUpdate stats fields ∧
      (∀ k, k ∈ keysOf stats' ↔ k ∈ keysOf stats ∨ k ∈ keysOf fields) ∧
      ((keysOf fields).Nodup → ∀ k,
        lookupD stats' k =
          match lookupD fields k with
          | some v => some v
          | none => lookupD stats k)) := by
  have main : ∀ method kwargs envelope stats r stats',
      Aio.send_request method kwargs envelope stats = Except.ok (r, stats') →
      ∃ fields, r = JValue.obj fields ∧ stats' = dictUpdate stats fields := by
    intro method kwargs envelope stats r stats' h
    unfold Aio.send_request at h
    cases hc : classifyResponse envelope with
    | error e =>
      simp only [hc] at h
      exact Except.noConfusion h
    | ok rv =>
      simp only [hc] at h
      cases rv with
      | obj fields =>
        simp only [Except.ok.injEq, Prod.mk.injEq] at h
        exact ⟨fields, h.1.symm, h.2.symm⟩
      | str s => exact Except.noConfusion h
      | num n => exact Except.noConfusion h
      | bool b => exact Except.noConfusion h
      | null => exact Except.noConfusion h
      | arr l => exact Except.noConfusion h
      | dur d => exact Except.noConfusion h
      | time t => exact Except.noConfusion h
  constructor
  · intro method kwargs envelope stats r stats' h
    obtain ⟨fields, hr, -⟩ := main method kwargs envelope stats r stats' h
    rw [hr]
    rfl
  · intro method kwargs envelope stats fields stats' h
    obtain ⟨fields', hr, hs⟩ :=
      main method kwargs envelope stats (JValue.obj fields) stats' h
    have hf : fields = fields' := by injection hr
    subst hf
    refine ⟨hs, fun k => ?_, fun hnd k => ?_⟩
    · rw [hs]
      exact mem_keysOf_dictUpdate fields stats k
    · rw [hs]
      exact lookupD_dictUpdate fields hnd stats k

/-- C4 (witness): the merge property at the concrete `getSelf`
envelope, starting from empty stats. -/
theorem stats_merge_witness :
    ([("self", selfBody)] : List (String × JValue)) =
      dictUpdate [] [("self", selfBody)] :=
  (stats_merge_amended.2 "getSelf" [] actualSelfEnvelope []
    [("self", selfBody)] [("self", selfBody)] rfl).1

/-- C5 (counterexample): constructing the sync client in persistent
(keepalive) mode against an unreachable endpoint raises the RAW
`OSError` from `socket.connect` — `__init__` has no try/except — so the
failure is neither `APIUnreachable` nor the daemon-reported `APIError`. -/
theorem keepalive_init_raw_oserror_cex :
    Sync.init "localhost" 9001 true (some "Connection refused") ⟨0, []⟩ =
      Except.error (PyError.osError "Connection refused") ∧
    isUnreachableError (PyError.osError "Connection refused") = false ∧
    isDaemonApiError (PyError.osError "Connection refused") = false :=
  ⟨rfl, rfl, rfl⟩

/-- C5 (amended): connection failure is reported as `APIUnreachable` by
the async `connect` helper (which wraps any `OSError`) and by the sync
client's ephemeral per-call acquisition (which formats its own
message); `APIUnreachable` is distinguishable from the daemon-reported
`APIError`, so a caller can tell "node not running" from "node rejected
the request".  However, persistent-mode connection establishment at
sync-client construction propagates the raw `OSError` unwrapped. -/
theorem unreachable_amended :
    (∀ host port msg st,
      connect host port (some msg) st =
        Except.error (PyError.apiUnreachable msg)) ∧
    (∀ host port msg st,
      Sync.get_connection ⟨host, port, false, none⟩ (some msg) st =
        Except.error (PyError.apiUnreachable
          ("Can't connect to " ++ host ++ ":" ++ toString port))) ∧
    (∀ address port msg st,
      Sync.init address port true (some msg) st =
        Except.error (PyError.osError msg)) ∧
    (∀ msg, isUnreachableError (PyError.apiUnreachable msg) = true ∧
      isDaemonApiError (PyError.apiUnreachable msg) = false) ∧
    (∀ payload, isUnreachableError (PyError.apiError payload) = false ∧
      isDaemonApiError (PyError.apiError payload) = true) :=
  ⟨fun _ _ _ _ => rfl, fun _ _ _ _ => rfl, fun _ _ _ _ => rfl,
   fun _ => ⟨rfl, rfl⟩, fun _ => ⟨rfl, rfl⟩⟩

/-- C5 (witness): the async connect helper wraps a concrete refused
connection as `APIUnreachable`. -/
theorem unreachable_witness :
    connect "localhost" 9001 (some "Connection refused") ⟨0, []⟩ =
      Except.error (PyError.apiUnreachable "Connection refused") :=
  unreachable_amended.1 "localhost" 9001 "Connection refused" ⟨0, []⟩

/-- One ephemeral-mode exchange of `sync.AdminAPI._send_request`: a
fresh handle `st.nextId` is allocated, used for the exchange, and
closed in the `finally` block on every exit path, so the open-handle
list returns to its initial value. -/
theorem sync_send_request_ephemeral (host : String) (port : Nat)
    (wire : Except String (List (String × JValue))) (st : ConnState)
    (method : String) (kwargs : List (String × JValue)) :
    Sync.send_request ⟨host, port, false, none⟩ none wire st method kwargs =
      ((match wire with
        | .error msg => .error (.osError msg)
        | .ok envelope => classifyResponse envelope),
       ⟨st.nextId + 1, st.opened⟩, some st.nextId) := by
  show ((match wire with
        | .error msg => Except.error (PyError.osError msg)
        | .ok envelope => classifyResponse envelope),
       (⟨st.nextId + 1, (st.nextId :: st.opened).erase st.nextId⟩ : ConnState),
       some st.nextId) = _
  rw [List.erase_cons_head]

/-- One persistent-mode exchange of `sync.AdminAPI._send_request`: the
stored handle `h` is used and the `finally` block does not close it
(`keepalive` is set), so the allocation state is untouched. -/
theorem sync_send_request_persistent (host : String) (port h : Nat)
    (netError : Option String) (wire : Except String (List (String × JValue)))
    (st : ConnState) (method : String) (kwargs : List (String × JValue)) :
    Sync.send_request ⟨host, port, true, some h⟩ netError wire st method kwargs =
      ((match wire with
        | .error msg => .error (.osError msg)
        | .ok envelope => classifyResponse envelope),
       st, some h) :=
  rfl

/-- C7: on a persistent (keepalive) sync client, any two sequential
calls use the stored connection handle and the dispatcher never closes
it (the allocation state is unchanged, whatever each exchange returns);
on an ephemeral client, two sequential calls use two distinct fresh
handles, and each is closed after its single exchange on every exit
path — the open-handle list ends exactly where it started, holding
neither of the two handles. -/
theorem connection_lifecycle :
    (∀ (host : String) (port h : Nat) (st : ConnState)
       (ne1 ne2 : Option String)
       (w1 w2 : Except String (List (String × JValue)))
       (m1 m2 : String) (kw1 kw2 : List (String × JValue)),
      (Sync.send_request ⟨host, port, true, some h⟩ ne1 w1 st m1 kw1).2.2 =
          some h ∧
      (Sync.send_request ⟨host, port, true, some h⟩ ne2 w2
          (Sync.send_request ⟨host, port, true, some h⟩ ne1 w1 st m1 kw1).2.1
          m2 kw2).2.2 = some h ∧
      (Sync.send_request ⟨host, port, true, some h⟩ ne2 w2
          (Sync.send_request ⟨host, port, true, some h⟩ ne1 w1 st m1 kw1).2.1
          m2 kw2).2.1 = st) ∧
    (∀ (host : String) (port : Nat) (st : ConnState)
       (w1 w2 : Except String (List (String × JValue)))
       (m1 m2 : String) (kw1 kw2 : List (String × JValue)),
      (∀ x ∈ st.opened, x < st.nextId) →
      (Sync.send_request ⟨host, port, false, none⟩ none w1 st m1 kw1).2.2 =
          some st.nextId ∧
      (Sync.send_request ⟨host, port, false, none⟩ none w2
          (Sync.send_request ⟨host, port, false, none⟩ none w1 st m1 kw1).2.1
          m2 kw2).2.2 = some (st.nextId + 1) ∧
      some st.nextId ≠ some (st.nextId + 1) ∧
      (Sync.send_request ⟨host, port, false, none⟩ none w2
          (Sync.send_request ⟨host, port, false, none⟩ none w1 st m1 kw1).2.1
          m2 kw2).2.1.opened = st.opened ∧
      st.nextId ∉ st.opened ∧ st.nextId + 1 ∉ st.opened) := by
  constructor
  · intro host port h st ne1 ne2 w1 w2 m1 m2 kw1 kw2
    exact ⟨rfl, rfl, rfl⟩
  · intro host port st w1 w2 m1 m2 kw1 kw2 hinv
    rw [sync_send_request_ephemeral host port w1 st m1 kw1,
        sync_send_request_ephemeral host port w2 ⟨st.nextId + 1, st.opened⟩ m2 kw2]
    refine ⟨rfl, rfl, ?_, rfl, ?_, ?_⟩
    · intro hq
      exact absurd (Option.some.inj hq) (by omega)
    · intro hmem
      exact absurd (hinv _ hmem) (lt_irrefl _)
    · intro hmem
      have := hinv _ hmem
      omega

/-- C7 (witness): both lifecycle properties at concrete clients, states
and wire outcomes. -/
theorem connection_lifecycle_witness :
    ((Sync.send_request ⟨"localhost", 9001, true, some 5⟩ none (Except.ok [])
        ⟨6, [5]⟩ "getSelf" []).2.2 = some 5 ∧
     (Sync.send_request ⟨"localhost", 9001, true, some 5⟩ none (Except.ok [])
        (Sync.send_request ⟨"localhost", 9001, true, some 5⟩ none (Except.ok [])
          ⟨6, [5]⟩ "getSelf" []).2.1 "getPeers" []).2.2 = some 5 ∧
     (Sync.send_request ⟨"localhost", 9001, true, some 5⟩ none (Except.ok [])
        (Sync.send_request ⟨"localhost", 9001, true, some 5⟩ none (Except.ok [])
          ⟨6, [5]⟩ "getSelf" []).2.1 "getPeers" []).2.1 = ⟨6, [5]⟩) ∧
    ((Sync.send_request ⟨"localhost", 9001, false, none⟩ none (Except.ok [])
        ⟨0, []⟩ "getSelf" []).2.2 = some 0 ∧
     (Sync.send_request ⟨"localhost", 9001, false, none⟩ none (Except.ok [])
        (Sync.send_request ⟨"localhost", 9001, false, none⟩ none (Except.ok [])
          ⟨0, []⟩ "getSelf" []).2.1 "getPeers" []).2.2 = some 1 ∧
     some 0 ≠ some 1 ∧
     (Sync.send_request ⟨"localhost", 9001, false, none⟩ none (Except.ok [])
        (Sync.send_request ⟨"localhost", 9001, false, none⟩ none (Except.ok [])
          ⟨0, []⟩ "getSelf" []).2.1 "getPeers" []).2.1.opened = [] ∧
     0 ∉ ([] : List Nat) ∧ 0 + 1 ∉ ([] : List Nat)) :=
  ⟨connection_lifecycle.1 "localhost" 9001 5 ⟨6, [5]⟩ none none
      (Except.ok []) (Except.ok []) "getSelf" "getPeers" [] [],
   connection_lifecycle.2 "localhost" 9001 ⟨0, []⟩
      (Except.ok []) (Except.ok []) "getSelf" "getPeers" [] [] (by simp)⟩

/-- C10: whenever `preprocess` returns a record, that record has
exactly the key list of its input — no key added, none removed, order
preserved — and every key other than `uptime` and `last_seen` keeps its
original, unmodified value. -/
theorem preprocess_frame :
    ∀ now r out, preprocess now r = Except.ok out →
      keysOf out = keysOf r ∧
      ∀ k, k ≠ "uptime" → k ≠ "last_seen" → lookupD out k = lookupD r k :=
  fun now r out h => keysOf_and_frame_of_preprocess_ok now r out h

/-- C10 (witness): the frame property at a concrete record whose
`uptime` is rewritten and whose `coords` is untouched. -/
theorem preprocess_frame_witness :
    lookupD [("uptime", JValue.dur 5), ("coords", JValue.str "fraza")] "coords" =
      lookupD [("uptime", JValue.num 5), ("coords", JValue.str "fraza")] "coords" :=
  (preprocess_frame 0 [("uptime", JValue.num 5), ("coords", JValue.str "fraza")]
      [("uptime", JValue.dur 5), ("coords", JValue.str "fraza")] rfl).2
    "coords" (by decide) (by decide)
